import Mathlib

/-!
Shallow embedding of `src/timeline_app.py` (FluxGIS/Sampling-assumptions).

The program is a day-by-day rolling simulation coupling two processes,
area sampling and area spreading, over a shared total area.  Real-valued
quantities of the source are modelled as rationals (`ℚ`); the source's
floating-point tolerance `1e-9` becomes the rational `1 / 1000000000`.
Calendar dates are `start_date + day_index`, so they are modelled by the
day index alone.
-/

/-- The absolute tolerance `1e-9` used by the source when comparing a
cumulative total against the target area (lines 148, 162, 165). -/
def eps : ℚ := 1 / 1000000000

/-- The engine inputs, read off the module-level variables of the source
that the simulation loop (lines 114-149) consumes. -/
structure SimulationConfig where
  total_area_ha : ℚ
  effective_sampling_ha_per_workday : ℚ
  spreading_ha_per_workday : ℚ
  workdays_per_week : ℕ
  spreading_lag_days : ℕ
  max_sim_days : ℕ
deriving DecidableEq

/-- Source lines 101-107: a simple repeating workweek; day 0 is a workday,
the first `workdays_per_week` days of each 7-day block are workdays. -/
def is_workday (day_index : ℕ) (workdays_per_week_ : ℕ) : Bool :=
  day_index % 7 < workdays_per_week_

/-- One row appended by the loop (source lines 134-145); the `date` column
is `start_date + day` and is represented by `day` itself. -/
structure DayRecord where
  day : ℕ
  workday : Bool
  sampled_today : ℚ
  spread_today : ℚ
  sampled_cum : ℚ
  spread_cum : ℚ
  backlog : ℚ
deriving DecidableEq

instance : Inhabited DayRecord := ⟨⟨0, false, 0, 0, 0, 0, 0⟩⟩

/-- One iteration of the simulation loop body (source lines 114-145):
sampling on workdays while the total is not reached, then spreading on
workdays past the lag, bounded by capacity, ready backlog and the
remaining area; the ready backlog is computed from the sampled cumulative
already updated by this day's sampling. -/
def dayStep (cfg : SimulationConfig) (d : ℕ) (sampled_cum spread_cum : ℚ) :
    DayRecord :=
  let workday := is_workday d cfg.workdays_per_week
  let p1 : ℚ × ℚ :=
    if workday = true ∧ sampled_cum < cfg.total_area_ha then
      let sampled_today :=
        min cfg.effective_sampling_ha_per_workday (cfg.total_area_ha - sampled_cum)
      (sampled_today, sampled_cum + sampled_today)
    else (0, sampled_cum)
  let sampled_today := p1.1
  let sampled_cum := p1.2
  let p2 : ℚ × ℚ :=
    if workday = true ∧ cfg.spreading_lag_days ≤ d then
      let ready_backlog := max (sampled_cum - spread_cum) 0
      if 0 < ready_backlog ∧ spread_cum < cfg.total_area_ha then
        let spread_today :=
          min cfg.spreading_ha_per_workday
            (min ready_backlog (cfg.total_area_ha - spread_cum))
        (spread_today, spread_cum + spread_today)
      else (0, spread_cum)
    else (0, spread_cum)
  let spread_today := p2.1
  let spread_cum := p2.2
  let backlog := max (sampled_cum - spread_cum) 0
  { day := d, workday := workday, sampled_today := sampled_today,
    spread_today := spread_today, sampled_cum := sampled_cum,
    spread_cum := spread_cum, backlog := backlog }

/-- The loop of source lines 114-149, starting at day `d` with the given
running totals and at most `fuel` further iterations: emit the day's row,
then stop if the spread cumulative is within `eps` of the total area. -/
def simFrom (cfg : SimulationConfig) (d : ℕ) (sampled_cum spread_cum : ℚ) :
    ℕ → List DayRecord
  | 0 => []
  | fuel + 1 =>
    let r := dayStep cfg d sampled_cum spread_cum
    r :: (if cfg.total_area_ha - eps ≤ r.spread_cum then []
          else simFrom cfg (d + 1) r.sampled_cum r.spread_cum fuel)

/-- The whole simulation: run from day 0 with zero totals for at most
`max_sim_days` days (source lines 110-149). -/
def simulate (cfg : SimulationConfig) : List DayRecord :=
  simFrom cfg 0 0 0 cfg.max_sim_days

/-- The finish-date scan of source lines 159-166: the day of the first row
whose `value` column is at least `threshold`, if any row qualifies. -/
def first_reaching_day (value : DayRecord → ℚ) (threshold : ℚ) :
    List DayRecord → Option ℕ
  | [] => none
  | r :: rows =>
    if threshold ≤ value r then some r.day
    else first_reaching_day value threshold rows

/-- Source lines 159-163: the first emitted day whose sampled cumulative
reaches the total area (within `eps`), as a day index, if any. -/
def sampling_finish_day (cfg : SimulationConfig) (rows : List DayRecord) :
    Option ℕ :=
  first_reaching_day DayRecord.sampled_cum (cfg.total_area_ha - eps) rows

/-- Source lines 160-166: the first emitted day whose spread cumulative
reaches the total area (within `eps`), as a day index, if any. -/
def spreading_finish_day (cfg : SimulationConfig) (rows : List DayRecord) :
    Option ℕ :=
  first_reaching_day DayRecord.spread_cum (cfg.total_area_ha - eps) rows

/-- Source line 67: derived density, guarded against a non-positive area. -/
def points_per_ha (total_points total_area_ha : ℚ) : ℚ :=
  if 0 < total_area_ha then total_points / total_area_ha else 0

/-- Source line 74. -/
def points_per_week_team (sampling_people points_per_person_per_week : ℚ) : ℚ :=
  sampling_people * points_per_person_per_week

/-- Source line 75. -/
def points_per_workday_team (points_per_week_team_ workdays_per_week_ : ℚ) : ℚ :=
  points_per_week_team_ / workdays_per_week_

/-- Source line 79: contingency as friction reducing effective output. -/
def sampling_friction (sampling_contingency_pct : ℚ) : ℚ :=
  1 + sampling_contingency_pct / 100

/-- Source line 80. -/
def effective_points_per_workday (points_per_workday_team_ sampling_friction_ : ℚ) : ℚ :=
  points_per_workday_team_ / sampling_friction_

/-- Source lines 83-85: sampled hectares per workday, guarded against a
non-positive density. -/
def effective_sampling_ha_per_workday (effective_points_per_workday_ points_per_ha_ : ℚ) : ℚ :=
  if 0 < points_per_ha_ then effective_points_per_workday_ / points_per_ha_ else 0

/-- Source line 88: spread hectares per workday, guarded against a
non-positive application rate. -/
def spreading_ha_per_workday (tonnes_per_day t_per_ha : ℚ) : ℚ :=
  if 0 < t_per_ha then tonnes_per_day / t_per_ha else 0

/-- Scenario B of the spec: total 100 ha, sampling 20 ha per workday,
spreading 5 ha per workday, all-week work, no lag. -/
def cfgB : SimulationConfig :=
  { total_area_ha := 100, effective_sampling_ha_per_workday := 20,
    spreading_ha_per_workday := 5, workdays_per_week := 7,
    spreading_lag_days := 0, max_sim_days := 365 }

/-- Scenario C of the spec: Scenario B with a three-day lag. -/
def cfgC : SimulationConfig :=
  { total_area_ha := 100, effective_sampling_ha_per_workday := 20,
    spreading_ha_per_workday := 5, workdays_per_week := 7,
    spreading_lag_days := 3, max_sim_days := 365 }

/-- A degenerate configuration: zero workdays per week, so no day ever
works and the run exhausts its horizon of 7 days without progress. -/
def cfgZ : SimulationConfig :=
  { total_area_ha := 1, effective_sampling_ha_per_workday := 0,
    spreading_ha_per_workday := 0, workdays_per_week := 0,
    spreading_lag_days := 0, max_sim_days := 7 }

/-- A zero-area configuration with the default horizon. -/
def cfgZero : SimulationConfig :=
  { total_area_ha := 0, effective_sampling_ha_per_workday := 20,
    spreading_ha_per_workday := 5, workdays_per_week := 7,
    spreading_lag_days := 0, max_sim_days := 365 }

/-- Unfolding step for the loop with the remaining-iteration count kept as
a binary numeral, so concrete runs can be evaluated one day at a time. -/
theorem simFrom_eval (cfg : SimulationConfig) (d : ℕ) (sc pc : ℚ) (fuel : ℕ)
    (h : fuel ≠ 0) :
    simFrom cfg d sc pc fuel =
      (dayStep cfg d sc pc) ::
        (if cfg.total_area_ha - eps ≤ (dayStep cfg d sc pc).spread_cum then []
         else simFrom cfg (d + 1) (dayStep cfg d sc pc).sampled_cum
            (dayStep cfg d sc pc).spread_cum (fuel - 1)) := by
  obtain ⟨k, rfl⟩ := Nat.exists_eq_succ_of_ne_zero h
  simp [simFrom]
/-- Full evaluation of the Scenario B run: 20 rows, days 0-19. -/
theorem simB_eval : simulate cfgB = [
    ⟨0, true, 20, 5, 20, 5, 15⟩,
    ⟨1, true, 20, 5, 40, 10, 30⟩,
    ⟨2, true, 20, 5, 60, 15, 45⟩,
    ⟨3, true, 20, 5, 80, 20, 60⟩,
    ⟨4, true, 20, 5, 100, 25, 75⟩,
    ⟨5, true, 0, 5, 100, 30, 70⟩,
    ⟨6, true, 0, 5, 100, 35, 65⟩,
    ⟨7, true, 0, 5, 100, 40, 60⟩,
    ⟨8, true, 0, 5, 100, 45, 55⟩,
    ⟨9, true, 0, 5, 100, 50, 50⟩,
    ⟨10, true, 0, 5, 100, 55, 45⟩,
    ⟨11, true, 0, 5, 100, 60, 40⟩,
    ⟨12, true, 0, 5, 100, 65, 35⟩,
    ⟨13, true, 0, 5, 100, 70, 30⟩,
    ⟨14, true, 0, 5, 100, 75, 25⟩,
    ⟨15, true, 0, 5, 100, 80, 20⟩,
    ⟨16, true, 0, 5, 100, 85, 15⟩,
    ⟨17, true, 0, 5, 100, 90, 10⟩,
    ⟨18, true, 0, 5, 100, 95, 5⟩,
    ⟨19, true, 0, 5, 100, 100, 0⟩] := by
  rw [simulate]
  rw [simFrom_eval _ _ _ _ _ (by norm_num [cfgB])]
  norm_num [dayStep, is_workday, cfgB, eps, min_def, max_def]
  rw [simFrom_eval _ _ _ _ _ (by norm_num)]
  norm_num [dayStep, is_workday, cfgB, eps, min_def, max_def]
  rw [simFrom_eval _ _ _ _ _ (by norm_num)]
  norm_num [dayStep, is_workday, cfgB, eps, min_def, max_def]
  rw [simFrom_eval _ _ _ _ _ (by norm_num)]
  norm_num [dayStep, is_workday, cfgB, eps, min_def, max_def]
  rw [simFrom_eval _ _ _ _ _ (by norm_num)]
  norm_num [dayStep, is_workday, cfgB, eps, min_def, max_def]
  rw [simFrom_eval _ _ _ _ _ (by norm_num)]
  norm_num [dayStep, is_workday, cfgB, eps, min_def, max_def]
  rw [simFrom_eval _ _ _ _ _ (by norm_num)]
  norm_num [dayStep, is_workday, cfgB, eps, min_def, max_def]
  rw [simFrom_eval _ _ _ _ _ (by norm_num)]
  norm_num [dayStep, is_workday, cfgB, eps, min_def, max_def]
  rw [simFrom_eval _ _ _ _ _ (by norm_num)]
  norm_num [dayStep, is_workday, cfgB, eps, min_def, max_def]
  rw [simFrom_eval _ _ _ _ _ (by norm_num)]
  norm_num [dayStep, is_workday, cfgB, eps, min_def, max_def]
  rw [simFrom_eval _ _ _ _ _ (by norm_num)]
  norm_num [dayStep, is_workday, cfgB, eps, min_def, max_def]
  rw [simFrom_eval _ _ _ _ _ (by norm_num)]
  norm_num [dayStep, is_workday, cfgB, eps, min_def, max_def]
  rw [simFrom_eval _ _ _ _ _ (by norm_num)]
  norm_num [dayStep, is_workday, cfgB, eps, min_def, max_def]
  rw [simFrom_eval _ _ _ _ _ (by norm_num)]
  norm_num [dayStep, is_workday, cfgB, eps, min_def, max_def]
  rw [simFrom_eval _ _ _ _ _ (by norm_num)]
  norm_num [dayStep, is_workday, cfgB, eps, min_def, max_def]
  rw [simFrom_eval _ _ _ _ _ (by norm_num)]
  norm_num [dayStep, is_workday, cfgB, eps, min_def, max_def]
  rw [simFrom_eval _ _ _ _ _ (by norm_num)]
  norm_num [dayStep, is_workday, cfgB, eps, min_def, max_def]
  rw [simFrom_eval _ _ _ _ _ (by norm_num)]
  norm_num [dayStep, is_workday, cfgB, eps, min_def, max_def]
  rw [simFrom_eval _ _ _ _ _ (by norm_num)]
  norm_num [dayStep, is_workday, cfgB, eps, min_def, max_def]
  rw [simFrom_eval _ _ _ _ _ (by norm_num)]
  norm_num [dayStep, is_workday, cfgB, eps, min_def, max_def]

/-- Full evaluation of the Scenario C run: 23 rows, days 0-22. -/
theorem simC_eval : simulate cfgC = [
    ⟨0, true, 20, 0, 20, 0, 20⟩,
    ⟨1, true, 20, 0, 40, 0, 40⟩,
    ⟨2, true, 20, 0, 60, 0, 60⟩,
    ⟨3, true, 20, 5, 80, 5, 75⟩,
    ⟨4, true, 20, 5, 100, 10, 90⟩,
    ⟨5, true, 0, 5, 100, 15, 85⟩,
    ⟨6, true, 0, 5, 100, 20, 80⟩,
    ⟨7, true, 0, 5, 100, 25, 75⟩,
    ⟨8, true, 0, 5, 100, 30, 70⟩,
    ⟨9, true, 0, 5, 100, 35, 65⟩,
    ⟨10, true, 0, 5, 100, 40, 60⟩,
    ⟨11, true, 0, 5, 100, 45, 55⟩,
    ⟨12, true, 0, 5, 100, 50, 50⟩,
    ⟨13, true, 0, 5, 100, 55, 45⟩,
    ⟨14, true, 0, 5, 100, 60, 40⟩,
    ⟨15, true, 0, 5, 100, 65, 35⟩,
    ⟨16, true, 0, 5, 100, 70, 30⟩,
    ⟨17, true, 0, 5, 100, 75, 25⟩,
    ⟨18, true, 0, 5, 100, 80, 20⟩,
    ⟨19, true, 0, 5, 100, 85, 15⟩,
    ⟨20, true, 0, 5, 100, 90, 10⟩,
    ⟨21, true, 0, 5, 100, 95, 5⟩,
    ⟨22, true, 0, 5, 100, 100, 0⟩] := by
  rw [simulate]
  rw [simFrom_eval _ _ _ _ _ (by norm_num [cfgC])]
  norm_num [dayStep, is_workday, cfgC, eps, min_def, max_def]
  rw [simFrom_eval _ _ _ _ _ (by norm_num)]
  norm_num [dayStep, is_workday, cfgC, eps, min_def, max_def]
  rw [simFrom_eval _ _ _ _ _ (by norm_num)]
  norm_num [dayStep, is_workday, cfgC, eps, min_def, max_def]
  rw [simFrom_eval _ _ _ _ _ (by norm_num)]
  norm_num [dayStep, is_workday, cfgC, eps, min_def, max_def]
  rw [simFrom_eval _ _ _ _ _ (by norm_num)]
  norm_num [dayStep, is_workday, cfgC, eps, min_def, max_def]
  rw [simFrom_eval _ _ _ _ _ (by norm_num)]
  norm_num [dayStep, is_workday, cfgC, eps, min_def, max_def]
  rw [simFrom_eval _ _ _ _ _ (by norm_num)]
  norm_num [dayStep, is_workday, cfgC, eps, min_def, max_def]
  rw [simFrom_eval _ _ _ _ _ (by norm_num)]
  norm_num [dayStep, is_workday, cfgC, eps, min_def, max_def]
  rw [simFrom_eval _ _ _ _ _ (by norm_num)]
  norm_num [dayStep, is_workday, cfgC, eps, min_def, max_def]
  rw [simFrom_eval _ _ _ _ _ (by norm_num)]
  norm_num [dayStep, is_workday, cfgC, eps, min_def, max_def]
  rw [simFrom_eval _ _ _ _ _ (by norm_num)]
  norm_num [dayStep, is_workday, cfgC, eps, min_def, max_def]
  rw [simFrom_eval _ _ _ _ _ (by norm_num)]
  norm_num [dayStep, is_workday, cfgC, eps, min_def, max_def]
  rw [simFrom_eval _ _ _ _ _ (by norm_num)]
  norm_num [dayStep, is_workday, cfgC, eps, min_def, max_def]
  rw [simFrom_eval _ _ _ _ _ (by norm_num)]
  norm_num [dayStep, is_workday, cfgC, eps, min_def, max_def]
  rw [simFrom_eval _ _ _ _ _ (by norm_num)]
  norm_num [dayStep, is_workday, cfgC, eps, min_def, max_def]
  rw [simFrom_eval _ _ _ _ _ (by norm_num)]
  norm_num [dayStep, is_workday, cfgC, eps, min_def, max_def]
  rw [simFrom_eval _ _ _ _ _ (by norm_num)]
  norm_num [dayStep, is_workday, cfgC, eps, min_def, max_def]
  rw [simFrom_eval _ _ _ _ _ (by norm_num)]
  norm_num [dayStep, is_workday, cfgC, eps, min_def, max_def]
  rw [simFrom_eval _ _ _ _ _ (by norm_num)]
  norm_num [dayStep, is_workday, cfgC, eps, min_def, max_def]
  rw [simFrom_eval _ _ _ _ _ (by norm_num)]
  norm_num [dayStep, is_workday, cfgC, eps, min_def, max_def]
  rw [simFrom_eval _ _ _ _ _ (by norm_num)]
  norm_num [dayStep, is_workday, cfgC, eps, min_def, max_def]
  rw [simFrom_eval _ _ _ _ _ (by norm_num)]
  norm_num [dayStep, is_workday, cfgC, eps, min_def, max_def]
  rw [simFrom_eval _ _ _ _ _ (by norm_num)]
  norm_num [dayStep, is_workday, cfgC, eps, min_def, max_def]

/-- Full evaluation of the degenerate never-working run: 7 rows, all idle. -/
theorem simZ_eval : simulate cfgZ = [
    ⟨0, false, 0, 0, 0, 0, 0⟩,
    ⟨1, false, 0, 0, 0, 0, 0⟩,
    ⟨2, false, 0, 0, 0, 0, 0⟩,
    ⟨3, false, 0, 0, 0, 0, 0⟩,
    ⟨4, false, 0, 0, 0, 0, 0⟩,
    ⟨5, false, 0, 0, 0, 0, 0⟩,
    ⟨6, false, 0, 0, 0, 0, 0⟩] := by
  rw [simulate]
  rw [simFrom_eval _ _ _ _ _ (by norm_num [cfgZ])]
  norm_num [dayStep, is_workday, cfgZ, eps, min_def, max_def]
  rw [simFrom_eval _ _ _ _ _ (by norm_num)]
  norm_num [dayStep, is_workday, cfgZ, eps, min_def, max_def]
  rw [simFrom_eval _ _ _ _ _ (by norm_num)]
  norm_num [dayStep, is_workday, cfgZ, eps, min_def, max_def]
  rw [simFrom_eval _ _ _ _ _ (by norm_num)]
  norm_num [dayStep, is_workday, cfgZ, eps, min_def, max_def]
  rw [simFrom_eval _ _ _ _ _ (by norm_num)]
  norm_num [dayStep, is_workday, cfgZ, eps, min_def, max_def]
  rw [simFrom_eval _ _ _ _ _ (by norm_num)]
  norm_num [dayStep, is_workday, cfgZ, eps, min_def, max_def]
  rw [simFrom_eval _ _ _ _ _ (by norm_num)]
  norm_num [dayStep, is_workday, cfgZ, eps, min_def, max_def]

  simp [simFrom]

/-- The emitted day index is the loop's day index. -/
theorem dayStep_day (cfg : SimulationConfig) (d : ℕ) (sc pc : ℚ) :
    (dayStep cfg d sc pc).day = d := rfl

/-- The emitted workday flag is the schedule function on the day index. -/
theorem dayStep_workday (cfg : SimulationConfig) (d : ℕ) (sc pc : ℚ) :
    (dayStep cfg d sc pc).workday = is_workday d cfg.workdays_per_week := rfl

/-- The emitted backlog is the clamped difference of the emitted totals. -/
theorem dayStep_backlog (cfg : SimulationConfig) (d : ℕ) (sc pc : ℚ) :
    (dayStep cfg d sc pc).backlog =
      max ((dayStep cfg d sc pc).sampled_cum - (dayStep cfg d sc pc).spread_cum) 0 := rfl

/-- Closed form of the emitted sampled cumulative. -/
theorem dayStep_sampled_cum_def (cfg : SimulationConfig) (d : ℕ) (sc pc : ℚ) :
    (dayStep cfg d sc pc).sampled_cum =
      if is_workday d cfg.workdays_per_week = true ∧ sc < cfg.total_area_ha then
        sc + min cfg.effective_sampling_ha_per_workday (cfg.total_area_ha - sc)
      else sc := by
  simp only [dayStep]
  split_ifs <;> rfl

/-- Closed form of the emitted sampled amount for the day. -/
theorem dayStep_sampled_today_def (cfg : SimulationConfig) (d : ℕ) (sc pc : ℚ) :
    (dayStep cfg d sc pc).sampled_today =
      if is_workday d cfg.workdays_per_week = true ∧ sc < cfg.total_area_ha then
        min cfg.effective_sampling_ha_per_workday (cfg.total_area_ha - sc)
      else 0 := by
  simp only [dayStep]
  split_ifs <;> rfl

/-- Closed form of the emitted spread cumulative, in terms of the already
updated sampled cumulative. -/
theorem dayStep_spread_cum_def (cfg : SimulationConfig) (d : ℕ) (sc pc : ℚ) :
    (dayStep cfg d sc pc).spread_cum =
      if is_workday d cfg.workdays_per_week = true ∧ cfg.spreading_lag_days ≤ d then
        (if 0 < max ((dayStep cfg d sc pc).sampled_cum - pc) 0 ∧ pc < cfg.total_area_ha then
          pc + min cfg.spreading_ha_per_workday
            (min (max ((dayStep cfg d sc pc).sampled_cum - pc) 0) (cfg.total_area_ha - pc))
        else pc)
      else pc := by
  simp only [dayStep]
  split_ifs <;> rfl

/-- Closed form of the emitted spread amount for the day, in terms of the
already updated sampled cumulative. -/
theorem dayStep_spread_today_def (cfg : SimulationConfig) (d : ℕ) (sc pc : ℚ) :
    (dayStep cfg d sc pc).spread_today =
      if is_workday d cfg.workdays_per_week = true ∧ cfg.spreading_lag_days ≤ d then
        (if 0 < max ((dayStep cfg d sc pc).sampled_cum - pc) 0 ∧ pc < cfg.total_area_ha then
          min cfg.spreading_ha_per_workday
            (min (max ((dayStep cfg d sc pc).sampled_cum - pc) 0) (cfg.total_area_ha - pc))
        else 0)
      else 0 := by
  simp only [dayStep]
  split_ifs <;> rfl

/-- The sampled cumulative update is exactly the day's sampled amount. -/
theorem dayStep_sampled_cum_eq (cfg : SimulationConfig) (d : ℕ) (sc pc : ℚ) :
    (dayStep cfg d sc pc).sampled_cum = sc + (dayStep cfg d sc pc).sampled_today := by
  rw [dayStep_sampled_cum_def, dayStep_sampled_today_def]
  split_ifs <;> ring

/-- The spread cumulative update is exactly the day's spread amount. -/
theorem dayStep_spread_cum_eq (cfg : SimulationConfig) (d : ℕ) (sc pc : ℚ) :
    (dayStep cfg d sc pc).spread_cum = pc + (dayStep cfg d sc pc).spread_today := by
  rw [dayStep_spread_cum_def, dayStep_spread_today_def]
  split_ifs <;> ring

/-- With a non-negative sampling rate, the day's sampled amount is non-negative. -/
theorem dayStep_sampled_today_nonneg (cfg : SimulationConfig) (d : ℕ) (sc pc : ℚ)
    (hs : 0 ≤ cfg.effective_sampling_ha_per_workday) :
    0 ≤ (dayStep cfg d sc pc).sampled_today := by
  rw [dayStep_sampled_today_def]
  split_ifs with h
  · exact le_min hs (by linarith [h.2])
  · exact le_refl 0

/-- With a non-negative spreading rate, the day's spread amount is non-negative. -/
theorem dayStep_spread_today_nonneg (cfg : SimulationConfig) (d : ℕ) (sc pc : ℚ)
    (hp : 0 ≤ cfg.spreading_ha_per_workday) :
    0 ≤ (dayStep cfg d sc pc).spread_today := by
  rw [dayStep_spread_today_def]
  split_ifs with h1 h2
  · exact le_min hp (le_min (le_of_lt h2.1) (by linarith [h2.2]))
  · exact le_refl 0
  · exact le_refl 0

/-- With a non-negative sampling rate, the sampled cumulative never decreases. -/
theorem dayStep_sampled_cum_mono (cfg : SimulationConfig) (d : ℕ) (sc pc : ℚ)
    (hs : 0 ≤ cfg.effective_sampling_ha_per_workday) :
    sc ≤ (dayStep cfg d sc pc).sampled_cum := by
  rw [dayStep_sampled_cum_eq]
  have := dayStep_sampled_today_nonneg cfg d sc pc hs
  linarith

/-- With a non-negative spreading rate, the spread cumulative never decreases. -/
theorem dayStep_spread_cum_mono (cfg : SimulationConfig) (d : ℕ) (sc pc : ℚ)
    (hp : 0 ≤ cfg.spreading_ha_per_workday) :
    pc ≤ (dayStep cfg d sc pc).spread_cum := by
  rw [dayStep_spread_cum_eq]
  have := dayStep_spread_today_nonneg cfg d sc pc hp
  linarith

/-- The sampled cumulative never overshoots the total area. -/
theorem dayStep_sampled_cum_le (cfg : SimulationConfig) (d : ℕ) (sc pc : ℚ)
    (h : sc ≤ cfg.total_area_ha) :
    (dayStep cfg d sc pc).sampled_cum ≤ cfg.total_area_ha := by
  rw [dayStep_sampled_cum_def]
  split_ifs with h1
  · have := min_le_right cfg.effective_sampling_ha_per_workday (cfg.total_area_ha - sc)
    linarith
  · exact h

/-- The spread cumulative never overshoots the total area. -/
theorem dayStep_spread_cum_le (cfg : SimulationConfig) (d : ℕ) (sc pc : ℚ)
    (h : pc ≤ cfg.total_area_ha) :
    (dayStep cfg d sc pc).spread_cum ≤ cfg.total_area_ha := by
  rw [dayStep_spread_cum_def]
  split_ifs with h1 h2
  · have h3 := min_le_right (max ((dayStep cfg d sc pc).sampled_cum - pc) 0)
      (cfg.total_area_ha - pc)
    have h4 := min_le_right cfg.spreading_ha_per_workday
      (min (max ((dayStep cfg d sc pc).sampled_cum - pc) 0) (cfg.total_area_ha - pc))
    linarith
  · exact h
  · exact h

/-- With a non-negative sampling rate, the spread cumulative emitted for a
day never exceeds the sampled cumulative emitted for the same day. -/
theorem dayStep_order (cfg : SimulationConfig) (d : ℕ) (sc pc : ℚ)
    (hs : 0 ≤ cfg.effective_sampling_ha_per_workday) (hord : pc ≤ sc) :
    (dayStep cfg d sc pc).spread_cum ≤ (dayStep cfg d sc pc).sampled_cum := by
  have hmono : sc ≤ (dayStep cfg d sc pc).sampled_cum :=
    dayStep_sampled_cum_mono cfg d sc pc hs
  rw [dayStep_spread_cum_def]
  split_ifs with h1 h2
  · have hready : max ((dayStep cfg d sc pc).sampled_cum - pc) 0 =
        (dayStep cfg d sc pc).sampled_cum - pc := by
      rw [max_eq_left]
      linarith
    rw [hready]
    have h3 := min_le_left ((dayStep cfg d sc pc).sampled_cum - pc)
      (cfg.total_area_ha - pc)
    have h4 := min_le_right cfg.spreading_ha_per_workday
      (min ((dayStep cfg d sc pc).sampled_cum - pc) (cfg.total_area_ha - pc))
    linarith
  · linarith
  · linarith

/-- On a non-workday the step is a no-op: zero amounts, unchanged totals. -/
theorem dayStep_off (cfg : SimulationConfig) (d : ℕ) (sc pc : ℚ)
    (h : is_workday d cfg.workdays_per_week = false) :
    (dayStep cfg d sc pc).sampled_today = 0 ∧ (dayStep cfg d sc pc).spread_today = 0 ∧
    (dayStep cfg d sc pc).sampled_cum = sc ∧ (dayStep cfg d sc pc).spread_cum = pc := by
  refine ⟨?_, ?_, ?_, ?_⟩
  · rw [dayStep_sampled_today_def]; simp [h]
  · rw [dayStep_spread_today_def]; simp [h]
  · rw [dayStep_sampled_cum_def]; simp [h]
  · rw [dayStep_spread_cum_def]; simp [h]

/-- Before the lag has elapsed, the day's spread amount is zero. -/
theorem dayStep_lag (cfg : SimulationConfig) (d : ℕ) (sc pc : ℚ)
    (h : d < cfg.spreading_lag_days) :
    (dayStep cfg d sc pc).spread_today = 0 := by
  rw [dayStep_spread_today_def]
  have : ¬ cfg.spreading_lag_days ≤ d := Nat.not_le.mpr h
  simp [this]

/-- The loop emits at most as many rows as it has remaining iterations. -/
theorem simFrom_length_le (cfg : SimulationConfig) :
    ∀ (fuel d : ℕ) (sc pc : ℚ), (simFrom cfg d sc pc fuel).length ≤ fuel := by
  intro fuel
  induction fuel with
  | zero => intro d sc pc; simp [simFrom]
  | succ n ih =>
    intro d sc pc
    simp only [simFrom]
    by_cases hstop : cfg.total_area_ha - eps ≤ (dayStep cfg d sc pc).spread_cum
    · simp [hstop]
    · simp only [if_neg hstop, List.length_cons]
      exact Nat.succ_le_succ (ih _ _ _)

/-- The `i`-th emitted row of the loop started at day `d` is day `d + i`. -/
theorem simFrom_getD_day (cfg : SimulationConfig) :
    ∀ (fuel d : ℕ) (sc pc : ℚ) (i : ℕ), i < (simFrom cfg d sc pc fuel).length →
      ((simFrom cfg d sc pc fuel).getD i default).day = d + i := by
  intro fuel
  induction fuel with
  | zero => intro d sc pc i h; simp [simFrom] at h
  | succ n ih =>
    intro d sc pc i h
    simp only [simFrom] at h ⊢
    cases i with
    | zero => simp [dayStep_day]
    | succ i =>
      simp only [List.getD_cons_succ]
      rw [List.length_cons] at h
      have hi := Nat.lt_of_succ_lt_succ h
      by_cases hstop : cfg.total_area_ha - eps ≤ (dayStep cfg d sc pc).spread_cum
      · rw [if_pos hstop] at hi
        simp at hi
      · rw [if_neg hstop] at hi ⊢
        rw [ih _ _ _ _ hi]
        omega

/-- Every row except possibly the last is strictly below the stopping
threshold on its spread cumulative. -/
theorem simFrom_not_stop (cfg : SimulationConfig) :
    ∀ (fuel d : ℕ) (sc pc : ℚ) (i : ℕ), i + 1 < (simFrom cfg d sc pc fuel).length →
      ((simFrom cfg d sc pc fuel).getD i default).spread_cum <
        cfg.total_area_ha - eps := by
  intro fuel
  induction fuel with
  | zero => intro d sc pc i h; simp [simFrom] at h
  | succ n ih =>
    intro d sc pc i h
    simp only [simFrom] at h ⊢
    rw [List.length_cons] at h
    have hi := Nat.lt_of_succ_lt_succ h
    by_cases hstop : cfg.total_area_ha - eps ≤ (dayStep cfg d sc pc).spread_cum
    · rw [if_pos hstop] at hi
      simp at hi
    · rw [if_neg hstop] at hi ⊢
      cases i with
      | zero => simpa using lt_of_not_le hstop
      | succ i =>
        simp only [List.getD_cons_succ]
        exact ih _ _ _ _ hi

/-- If the loop stops before exhausting its iterations, the run is nonempty
and its last row meets the stopping threshold. -/
theorem simFrom_early_stop (cfg : SimulationConfig) :
    ∀ (fuel d : ℕ) (sc pc : ℚ), (simFrom cfg d sc pc fuel).length < fuel →
      simFrom cfg d sc pc fuel ≠ [] ∧
      cfg.total_area_ha - eps ≤
        ((simFrom cfg d sc pc fuel).getD
          ((simFrom cfg d sc pc fuel).length - 1) default).spread_cum := by
  intro fuel
  induction fuel with
  | zero => intro d sc pc h; omega
  | succ n ih =>
    intro d sc pc h
    simp only [simFrom] at h ⊢
    by_cases hstop : cfg.total_area_ha - eps ≤ (dayStep cfg d sc pc).spread_cum
    · simp [hstop]
    · rw [if_neg hstop] at h ⊢
      rw [List.length_cons] at h ⊢
      have hlen : (simFrom cfg (d + 1) (dayStep cfg d sc pc).sampled_cum
          (dayStep cfg d sc pc).spread_cum n).length < n := Nat.lt_of_succ_lt_succ h
      obtain ⟨hne, hlast⟩ := ih _ _ _ hlen
      refine ⟨by simp, ?_⟩
      obtain ⟨m, hm⟩ : ∃ m, (simFrom cfg (d + 1) (dayStep cfg d sc pc).sampled_cum
          (dayStep cfg d sc pc).spread_cum n).length = m + 1 :=
        ⟨_, (Nat.succ_pred_eq_of_pos (List.length_pos.mpr hne)).symm⟩
      rw [hm]
      simp only [Nat.add_sub_cancel, List.getD_cons_succ]
      rw [hm, Nat.add_sub_cancel] at hlast
      exact hlast

/-- Every emitted row is some day's step outcome, for a day at or past the
starting day. -/
theorem simFrom_mem (cfg : SimulationConfig) :
    ∀ (fuel d : ℕ) (sc pc : ℚ) (r : DayRecord), r ∈ simFrom cfg d sc pc fuel →
      ∃ e sc' pc', d ≤ e ∧ r = dayStep cfg e sc' pc' := by
  intro fuel
  induction fuel with
  | zero => intro d sc pc r h; simp [simFrom] at h
  | succ n ih =>
    intro d sc pc r h
    simp only [simFrom, List.mem_cons] at h
    rcases h with h | h
    · exact ⟨d, sc, pc, le_refl d, h⟩
    · by_cases hstop : cfg.total_area_ha - eps ≤ (dayStep cfg d sc pc).spread_cum
      · rw [if_pos hstop] at h
        simp at h
      · rw [if_neg hstop] at h
        obtain ⟨e, sc', pc', he, hr⟩ := ih _ _ _ _ h
        exact ⟨e, sc', pc', le_trans (Nat.le_succ d) he, hr⟩

/-- A state invariant preserved by the step holds of the cumulative fields
of every emitted row, provided it holds of the initial state. -/
theorem simFrom_inv (cfg : SimulationConfig) (P : ℚ → ℚ → Prop)
    (hstep : ∀ (e : ℕ) (sc pc : ℚ), P sc pc →
      P (dayStep cfg e sc pc).sampled_cum (dayStep cfg e sc pc).spread_cum) :
    ∀ (fuel d : ℕ) (sc pc : ℚ), P sc pc →
      ∀ r ∈ simFrom cfg d sc pc fuel, P r.sampled_cum r.spread_cum := by
  intro fuel
  induction fuel with
  | zero => intro d sc pc hP r h; simp [simFrom] at h
  | succ n ih =>
    intro d sc pc hP r h
    simp only [simFrom, List.mem_cons] at h
    rcases h with h | h
    · rw [h]; exact hstep d sc pc hP
    · by_cases hstop : cfg.total_area_ha - eps ≤ (dayStep cfg d sc pc).spread_cum
      · rw [if_pos hstop] at h
        simp at h
      · rw [if_neg hstop] at h
        exact ih _ _ _ (hstep d sc pc hP) r h

/-- With non-negative rates, both cumulative columns are non-decreasing
between consecutive emitted rows. -/
theorem simFrom_getD_mono (cfg : SimulationConfig)
    (hs : 0 ≤ cfg.effective_sampling_ha_per_workday)
    (hp : 0 ≤ cfg.spreading_ha_per_workday) :
    ∀ (fuel d : ℕ) (sc pc : ℚ) (i : ℕ), i + 1 < (simFrom cfg d sc pc fuel).length →
      ((simFrom cfg d sc pc fuel).getD i default).sampled_cum ≤
        ((simFrom cfg d sc pc fuel).getD (i + 1) default).sampled_cum ∧
      ((simFrom cfg d sc pc fuel).getD i default).spread_cum ≤
        ((simFrom cfg d sc pc fuel).getD (i + 1) default).spread_cum := by
  intro fuel
  induction fuel with
  | zero => intro d sc pc i h; simp [simFrom] at h
  | succ n ih =>
    intro d sc pc i h
    simp only [simFrom] at h ⊢
    rw [List.length_cons] at h
    have hi := Nat.lt_of_succ_lt_succ h
    by_cases hstop : cfg.total_area_ha - eps ≤ (dayStep cfg d sc pc).spread_cum
    · rw [if_pos hstop] at hi
      simp at hi
    · rw [if_neg hstop] at hi ⊢
      cases i with
      | zero =>
        obtain ⟨m, hm⟩ : ∃ m, n = m + 1 := by
          rcases n with _ | m
          · simp [simFrom] at hi
          · exact ⟨m, rfl⟩
        subst hm
        simp only [List.getD_cons_zero, List.getD_cons_succ, simFrom,
          List.getD_cons_zero]
        constructor
        · exact dayStep_sampled_cum_mono cfg _ _ _ hs
        · exact dayStep_spread_cum_mono cfg _ _ _ hp
      | succ i =>
        simp only [List.getD_cons_succ]
        exact ih _ _ _ _ hi

/-- C1: for every configuration with non-negative rates and every emitted
row, the spread cumulative never exceeds the sampled cumulative, and the
backlog equals their difference and is non-negative. -/
theorem C1_ordering_invariant (cfg : SimulationConfig)
    (hs : 0 ≤ cfg.effective_sampling_ha_per_workday)
    (hp : 0 ≤ cfg.spreading_ha_per_workday) :
    ∀ r ∈ simulate cfg, r.spread_cum ≤ r.sampled_cum ∧
      r.backlog = r.sampled_cum - r.spread_cum ∧ 0 ≤ r.backlog := by
  intro r hr
  rw [simulate] at hr
  have hord : r.spread_cum ≤ r.sampled_cum :=
    simFrom_inv cfg (fun sc pc => pc ≤ sc)
      (fun e sc pc h => dayStep_order cfg e sc pc hs h)
      cfg.max_sim_days 0 0 0 le_rfl r hr
  obtain ⟨e, sc', pc', _, hrstep⟩ := simFrom_mem cfg cfg.max_sim_days 0 0 0 r hr
  have hb : r.backlog = max (r.sampled_cum - r.spread_cum) 0 := by
    rw [hrstep]
    exact dayStep_backlog cfg e sc' pc'
  have hmax : max (r.sampled_cum - r.spread_cum) 0 = r.sampled_cum - r.spread_cum :=
    max_eq_left (by linarith)
  refine ⟨hord, by rw [hb, hmax], ?_⟩
  rw [hb, hmax]
  linarith

/-- Witness for C1 at Scenario B's first emitted row. -/
theorem C1_witness :
    ((simulate cfgB).getD 0 default).spread_cum ≤
      ((simulate cfgB).getD 0 default).sampled_cum ∧
    ((simulate cfgB).getD 0 default).backlog =
      ((simulate cfgB).getD 0 default).sampled_cum -
        ((simulate cfgB).getD 0 default).spread_cum := by
  have hmem : (simulate cfgB).getD 0 default ∈ simulate cfgB := by
    rw [simB_eval]
    simp
  have h := C1_ordering_invariant cfgB (by norm_num [cfgB]) (by norm_num [cfgB])
    _ hmem
  exact ⟨h.1, h.2.1⟩

/-- C2: for every configuration the run has at most `max_sim_days` rows,
rows carry consecutive day indices from 0, every row except possibly the
last is strictly below the stopping threshold, and a run shorter than the
horizon ends with a row meeting the threshold. -/
theorem C2_termination (cfg : SimulationConfig) :
    (simulate cfg).length ≤ cfg.max_sim_days ∧
    (∀ i : ℕ, i < (simulate cfg).length → ((simulate cfg).getD i default).day = i) ∧
    (∀ i : ℕ, i + 1 < (simulate cfg).length →
      ((simulate cfg).getD i default).spread_cum < cfg.total_area_ha - eps) ∧
    ((simulate cfg).length < cfg.max_sim_days →
      simulate cfg ≠ [] ∧
      cfg.total_area_ha - eps ≤
        ((simulate cfg).getD ((simulate cfg).length - 1) default).spread_cum) := by
  simp only [simulate]
  refine ⟨simFrom_length_le cfg _ _ _ _, ?_, ?_, ?_⟩
  · intro i hi
    have := simFrom_getD_day cfg cfg.max_sim_days 0 0 0 i hi
    simpa using this
  · intro i hi
    exact simFrom_not_stop cfg _ _ _ _ i hi
  · intro h
    exact simFrom_early_stop cfg _ _ _ _ h

/-- Witness for C2 at the degenerate horizon-exhausting configuration. -/
theorem C2_witness :
    (simulate cfgZ).length ≤ cfgZ.max_sim_days ∧
    ((simulate cfgZ).getD 3 default).day = 3 := by
  refine ⟨(C2_termination cfgZ).1, (C2_termination cfgZ).2.1 3 ?_⟩
  rw [simZ_eval]
  norm_num

/-- Counterexample to C3 as stated: in Scenario B the backlog on day 4 is
75, not 80, and no emitted backlog ever equals 80. -/
theorem C3_counterexample :
    ((simulate cfgB).getD 4 default).backlog = 75 ∧
    ((simulate cfgB).getD 4 default).backlog ≠ 80 ∧
    (simulate cfgB).map DayRecord.backlog =
      [15, 30, 45, 60, 75, 70, 65, 60, 55, 50, 45, 40, 35, 30, 25, 20, 15, 10, 5, 0] := by
  rw [simB_eval]
  refine ⟨by norm_num, by norm_num, by norm_num⟩

/-- C3 (amended): in Scenario B sampling finishes on day index 4 and
spreading on day index 19; the backlog rises to 75 by day 4 (same-day
spreading consumes 5 of each day's sampled area) and declines to 0 by
day 19. -/
theorem C3_scenarioB :
    sampling_finish_day cfgB (simulate cfgB) = some 4 ∧
    spreading_finish_day cfgB (simulate cfgB) = some 19 ∧
    (simulate cfgB).map DayRecord.backlog =
      [15, 30, 45, 60, 75, 70, 65, 60, 55, 50, 45, 40, 35, 30, 25, 20, 15, 10, 5, 0] := by
  rw [simB_eval]
  refine ⟨?_, ?_, by norm_num⟩
  · norm_num [sampling_finish_day, first_reaching_day, cfgB, eps]
  · norm_num [spreading_finish_day, first_reaching_day, cfgB, eps]

/-- C4: on a workday past the lag, the emitted sampled cumulative is the
incoming one plus the day's sampled amount, and the day's spread amount is
the three-way minimum over the ready backlog computed from that already
updated sampled cumulative, or zero when there is no positive ready
backlog or the total is already spread. -/
theorem C4_same_day_visibility (cfg : SimulationConfig) (d : ℕ) (sc pc : ℚ)
    (hw : is_workday d cfg.workdays_per_week = true)
    (hlag : cfg.spreading_lag_days ≤ d) :
    (dayStep cfg d sc pc).sampled_cum = sc + (dayStep cfg d sc pc).sampled_today ∧
    (dayStep cfg d sc pc).spread_today =
      (if 0 < max ((dayStep cfg d sc pc).sampled_cum - pc) 0 ∧ pc < cfg.total_area_ha then
        min cfg.spreading_ha_per_workday
          (min (max ((dayStep cfg d sc pc).sampled_cum - pc) 0) (cfg.total_area_ha - pc))
      else 0) := by
  refine ⟨dayStep_sampled_cum_eq cfg d sc pc, ?_⟩
  rw [dayStep_spread_today_def, if_pos ⟨hw, hlag⟩]

/-- Witness for C4 at Scenario B, day 0, zero running totals. -/
theorem C4_witness : (dayStep cfgB 0 0 0).spread_today = 5 := by
  have h := C4_same_day_visibility cfgB 0 0 0 (by decide) (by norm_num [cfgB])
  rw [h.2]
  norm_num [dayStep, is_workday, cfgB, min_def, max_def]

/-- C5: with non-negative rates and a non-negative total area, both
cumulative columns are non-decreasing across consecutive rows and bounded
above by the total area on every row. -/
theorem C5_monotone_bounded (cfg : SimulationConfig)
    (hs : 0 ≤ cfg.effective_sampling_ha_per_workday)
    (hp : 0 ≤ cfg.spreading_ha_per_workday)
    (ht : 0 ≤ cfg.total_area_ha) :
    (∀ i : ℕ, i + 1 < (simulate cfg).length →
      ((simulate cfg).getD i default).sampled_cum ≤
        ((simulate cfg).getD (i + 1) default).sampled_cum ∧
      ((simulate cfg).getD i default).spread_cum ≤
        ((simulate cfg).getD (i + 1) default).spread_cum) ∧
    (∀ r ∈ simulate cfg, r.sampled_cum ≤ cfg.total_area_ha ∧
      r.spread_cum ≤ cfg.total_area_ha) := by
  constructor
  · intro i hi
    rw [simulate] at hi ⊢
    exact simFrom_getD_mono cfg hs hp cfg.max_sim_days 0 0 0 i hi
  · intro r hr
    rw [simulate] at hr
    exact simFrom_inv cfg
      (fun sc pc => sc ≤ cfg.total_area_ha ∧ pc ≤ cfg.total_area_ha)
      (fun e sc pc h => ⟨dayStep_sampled_cum_le cfg e sc pc h.1,
        dayStep_spread_cum_le cfg e sc pc h.2⟩)
      cfg.max_sim_days 0 0 0 ⟨ht, ht⟩ r hr

/-- Witness for C5 at Scenario B, rows 0 and 1. -/
theorem C5_witness :
    ((simulate cfgB).getD 0 default).sampled_cum ≤
      ((simulate cfgB).getD 1 default).sampled_cum ∧
    ((simulate cfgB).getD 0 default).sampled_cum ≤ cfgB.total_area_ha := by
  have h := C5_monotone_bounded cfgB (by norm_num [cfgB]) (by norm_num [cfgB])
    (by norm_num [cfgB])
  have hlen : 0 + 1 < (simulate cfgB).length := by
    rw [simB_eval]
    norm_num
  have hmem : (simulate cfgB).getD 0 default ∈ simulate cfgB := by
    rw [simB_eval]
    simp
  exact ⟨(h.1 0 hlen).1, (h.2 _ hmem).1⟩

/-- C6: before the lag no emitted row spreads anything, and with a zero
lag (given a workday schedule, positive rates, positive area and at least
one simulated day) spreading already happens on day index 0. -/
theorem C6_lag_enforcement (cfg : SimulationConfig) :
    (∀ r ∈ simulate cfg, r.day < cfg.spreading_lag_days → r.spread_today = 0) ∧
    (cfg.spreading_lag_days = 0 → 0 < cfg.workdays_per_week →
      0 < cfg.effective_sampling_ha_per_workday →
      0 < cfg.spreading_ha_per_workday → 0 < cfg.total_area_ha →
      0 < cfg.max_sim_days →
      0 < ((simulate cfg).getD 0 default).spread_today) := by
  constructor
  · intro r hr hday
    rw [simulate] at hr
    obtain ⟨e, sc', pc', _, hrstep⟩ := simFrom_mem cfg cfg.max_sim_days 0 0 0 r hr
    subst hrstep
    rw [dayStep_day] at hday
    exact dayStep_lag cfg e sc' pc' hday
  · intro h0 hw hs hp ht hm
    obtain ⟨k, hk⟩ : ∃ k, cfg.max_sim_days = k + 1 := ⟨cfg.max_sim_days - 1, by omega⟩
    have hhead : (simulate cfg).getD 0 default = dayStep cfg 0 0 0 := by
      simp only [simulate, hk, simFrom]
      simp
    rw [hhead]
    have hwd : is_workday 0 cfg.workdays_per_week = true := by
      simp only [is_workday]
      simpa using hw
    have hsc : (dayStep cfg 0 0 0).sampled_cum =
        min cfg.effective_sampling_ha_per_workday cfg.total_area_ha := by
      rw [dayStep_sampled_cum_def, if_pos ⟨hwd, ht⟩]
      simp
    have hscpos : 0 < (dayStep cfg 0 0 0).sampled_cum := by
      rw [hsc]
      exact lt_min hs ht
    rw [dayStep_spread_today_def, if_pos ⟨hwd, by omega⟩]
    have hready : (0:ℚ) < max ((dayStep cfg 0 0 0).sampled_cum - 0) 0 := by
      rw [sub_zero]
      exact lt_max_of_lt_left hscpos
    rw [if_pos ⟨hready, ht⟩]
    refine lt_min hp (lt_min hready ?_)
    rw [sub_zero]
    exact ht

/-- Witness for C6: Scenario C spreads nothing on day 0, Scenario B
spreads a positive amount on day 0. -/
theorem C6_witness :
    ((simulate cfgC).getD 0 default).spread_today = 0 ∧
    0 < ((simulate cfgB).getD 0 default).spread_today := by
  constructor
  · refine (C6_lag_enforcement cfgC).1 _ ?_ ?_
    · rw [simC_eval]
      simp
    · rw [simC_eval]
      norm_num [cfgC]
  · exact (C6_lag_enforcement cfgB).2 rfl (by norm_num [cfgB]) (by norm_num [cfgB])
      (by norm_num [cfgB]) (by norm_num [cfgB]) (by norm_num [cfgB])

/-- C7: the workday schedule is exactly `d mod 7 < workdays_per_week`, each
row's workday flag is the schedule at its own day index, and a non-workday
row samples and spreads nothing. -/
theorem C7_non_workday_noop (cfg : SimulationConfig) :
    (∀ d w : ℕ, is_workday d w = true ↔ d % 7 < w) ∧
    (∀ r ∈ simulate cfg, r.workday = is_workday r.day cfg.workdays_per_week ∧
      (r.workday = false → r.sampled_today = 0 ∧ r.spread_today = 0)) := by
  constructor
  · intro d w
    simp [is_workday]
  · intro r hr
    rw [simulate] at hr
    obtain ⟨e, sc', pc', _, hrstep⟩ := simFrom_mem cfg cfg.max_sim_days 0 0 0 r hr
    subst hrstep
    refine ⟨by rw [dayStep_day, dayStep_workday], ?_⟩
    intro hoff
    rw [dayStep_workday] at hoff
    obtain ⟨h1, h2, _, _⟩ := dayStep_off cfg e sc' pc' hoff
    exact ⟨h1, h2⟩

/-- Witness for C7: the schedule iff at a concrete pair, and the all-idle
run's day 0 samples nothing on its non-workday. -/
theorem C7_witness :
    (is_workday 9 5 = true ↔ 9 % 7 < 5) ∧
    ((simulate cfgZ).getD 0 default).sampled_today = 0 := by
  refine ⟨(C7_non_workday_noop cfgZ).1 9 5, ?_⟩
  have hmem : (simulate cfgZ).getD 0 default ∈ simulate cfgZ := by
    rw [simZ_eval]
    simp
  have hoff : ((simulate cfgZ).getD 0 default).workday = false := by
    rw [simZ_eval]
    rfl
  exact (((C7_non_workday_noop cfgZ).2 _ hmem).2 hoff).1

/-- C8: relative to the lag-0 Scenario B run, the lag-3 run spreads
nothing on day indices 0, 1 and 2, finishes spreading exactly 3 days
later (day 22 versus day 19), and finishes sampling on the same day 4. -/
theorem C8_lag_shift :
    ((simulate cfgC).getD 0 default).spread_today = 0 ∧
    ((simulate cfgC).getD 1 default).spread_today = 0 ∧
    ((simulate cfgC).getD 2 default).spread_today = 0 ∧
    spreading_finish_day cfgB (simulate cfgB) = some 19 ∧
    spreading_finish_day cfgC (simulate cfgC) = some (19 + 3) ∧
    sampling_finish_day cfgB (simulate cfgB) = some 4 ∧
    sampling_finish_day cfgC (simulate cfgC) =
      sampling_finish_day cfgB (simulate cfgB) := by
  rw [simB_eval, simC_eval]
  refine ⟨by norm_num, by norm_num, by norm_num, ?_, ?_, ?_, ?_⟩
  · norm_num [spreading_finish_day, first_reaching_day, cfgB, eps]
  · norm_num [spreading_finish_day, first_reaching_day, cfgC, eps]
  · norm_num [sampling_finish_day, first_reaching_day, cfgB, eps]
  · norm_num [sampling_finish_day, first_reaching_day, cfgB, cfgC, eps]

/-- C9: a non-positive total area makes the derived density 0, a
non-positive density or application rate makes the corresponding derived
rate 0 (the guarded branches never divide), and all the guarded rates are
non-negative whenever their numerators are. -/
theorem C9_guarded_rates :
    (∀ tp ta : ℚ, ta ≤ 0 → points_per_ha tp ta = 0) ∧
    (∀ e p : ℚ, p ≤ 0 → effective_sampling_ha_per_workday e p = 0) ∧
    (∀ td th : ℚ, th ≤ 0 → spreading_ha_per_workday td th = 0) ∧
    (∀ e tp ta : ℚ, ta ≤ 0 →
      effective_sampling_ha_per_workday e (points_per_ha tp ta) = 0) ∧
    (∀ tp ta : ℚ, 0 ≤ tp → 0 ≤ points_per_ha tp ta) ∧
    (∀ e p : ℚ, 0 ≤ e → 0 ≤ effective_sampling_ha_per_workday e p) ∧
    (∀ td th : ℚ, 0 ≤ td → 0 ≤ spreading_ha_per_workday td th) := by
  have hppha : ∀ tp ta : ℚ, ta ≤ 0 → points_per_ha tp ta = 0 := by
    intro tp ta h
    rw [points_per_ha, if_neg (by linarith)]
  have hesamp : ∀ e p : ℚ, p ≤ 0 → effective_sampling_ha_per_workday e p = 0 := by
    intro e p h
    rw [effective_sampling_ha_per_workday, if_neg (by linarith)]
  refine ⟨hppha, hesamp, ?_, ?_, ?_, ?_, ?_⟩
  · intro td th h
    rw [spreading_ha_per_workday, if_neg (by linarith)]
  · intro e tp ta h
    rw [hppha tp ta h]
    exact hesamp e 0 le_rfl
  · intro tp ta h
    rw [points_per_ha]
    split_ifs with hta
    · exact div_nonneg h (le_of_lt hta)
    · exact le_rfl
  · intro e p h
    rw [effective_sampling_ha_per_workday]
    split_ifs with hp
    · exact div_nonneg h (le_of_lt hp)
    · exact le_rfl
  · intro td th h
    rw [spreading_ha_per_workday]
    split_ifs with hth
    · exact div_nonneg h (le_of_lt hth)
    · exact le_rfl

/-- Witness for C9 at the source's default inputs with a zeroed area. -/
theorem C9_witness :
    points_per_ha 13545 0 = 0 ∧
    effective_sampling_ha_per_workday 472 (points_per_ha 13545 0) = 0 ∧
    spreading_ha_per_workday 80 0 = 0 ∧
    0 ≤ spreading_ha_per_workday 80 40 := by
  refine ⟨C9_guarded_rates.1 13545 0 le_rfl, ?_, ?_, ?_⟩
  · exact C9_guarded_rates.2.2.2.1 472 13545 0 le_rfl
  · exact C9_guarded_rates.2.2.1 80 0 le_rfl
  · exact C9_guarded_rates.2.2.2.2.2.2 80 40 (by norm_num)

/-- C10: with a zero total area and at least one simulated day, the run is
a single all-zero row for day 0 (its workday flag following the schedule),
and both finish scans report day 0. -/
theorem C10_zero_area (cfg : SimulationConfig) (h0 : cfg.total_area_ha = 0)
    (h1 : 1 ≤ cfg.max_sim_days) :
    simulate cfg = [{ day := 0, workday := is_workday 0 cfg.workdays_per_week,
                      sampled_today := 0, spread_today := 0, sampled_cum := 0,
                      spread_cum := 0, backlog := 0 }] ∧
    sampling_finish_day cfg (simulate cfg) = some 0 ∧
    spreading_finish_day cfg (simulate cfg) = some 0 := by
  obtain ⟨k, hk⟩ : ∃ k, cfg.max_sim_days = k + 1 := ⟨cfg.max_sim_days - 1, by omega⟩
  have hstep : dayStep cfg 0 0 0 =
      { day := 0, workday := is_workday 0 cfg.workdays_per_week,
        sampled_today := 0, spread_today := 0, sampled_cum := 0, spread_cum := 0,
        backlog := 0 } := by
    simp [dayStep, h0]
  have hsim : simulate cfg = [dayStep cfg 0 0 0] := by
    simp only [simulate, hk, simFrom]
    have hstop : cfg.total_area_ha - eps ≤ (dayStep cfg 0 0 0).spread_cum := by
      rw [hstep, h0]
      norm_num [eps]
    simp [hstop]
  rw [hsim, hstep]
  refine ⟨rfl, ?_, ?_⟩
  · rw [sampling_finish_day, first_reaching_day, if_pos (by rw [h0]; norm_num [eps])]
  · rw [spreading_finish_day, first_reaching_day, if_pos (by rw [h0]; norm_num [eps])]

/-- Witness for C10 at the zero-area configuration. -/
theorem C10_witness :
    (simulate cfgZero).length = 1 ∧
    sampling_finish_day cfgZero (simulate cfgZero) = some 0 ∧
    spreading_finish_day cfgZero (simulate cfgZero) = some 0 := by
  have h := C10_zero_area cfgZero rfl (by norm_num [cfgZero])
  refine ⟨?_, h.2.1, h.2.2⟩
  rw [h.1]
  rfl
